import Mathlib

/-!
Shallow embedding of the valuecase-mcp server core (`src/index.ts`):
credential manager (`fetchValueCaseAccessToken`, `getValueCaseAccessToken`),
retry executor (`withRetry`), the static tool catalog, and the
`CallToolRequestSchema` handler (`callTool`).

Times are modelled as `Int` milliseconds (JS `Date.now()`), JS thrown values
as `JsError` (carrying an `instanceof Error` flag, the `.message`, and the
`String(error)` rendering), and the two kinds of network effects — the token
exchange POST and the upstream resource GETs — as data supplied by an `Env`
record.  Every function additionally reports its observable effects: how many
token-exchange calls it made, which upstream requests it issued (one entry per
HTTP attempt, in order), and which delays it slept.
-/

namespace Valuecase

/-- A JavaScript value appearing in a tool invocation's `arguments` mapping:
either a string or some non-string value (the validation code only asks
`typeof v === "string"`). -/
inductive JsValue where
  | str (s : String)
  | other
deriving DecidableEq, Repr

/-- A JavaScript thrown value: whether it is an `instanceof Error`, its
`.message`, and its `String(error)` rendering (used by the catch block when
the thrown value is not an `Error`). -/
structure JsError where
  isErrorInstance : Bool
  message : String
  asString : String
deriving DecidableEq, Repr

/-- The text the catch block extracts:
`error instanceof Error ? error.message : String(error)`. -/
def errorText (e : JsError) : String :=
  if e.isErrorInstance then e.message else e.asString

/-- `new McpError(ErrorCode.InvalidParams, msg)` as thrown by the argument
validation: it is an `Error` instance carrying the message. -/
def mcpInvalidParams (msg : String) : JsError :=
  { isErrorInstance := true, message := msg, asString := msg }

/-- Body of a successful token-exchange response: `access_token` and
`expires_in` (seconds). -/
structure TokenResponse where
  access_token : String
  expires_in : Int
deriving DecidableEq, Repr

/-- The two module-level mutable variables of the credential manager:
`valuecaseAccessToken` (initially the empty string) and `tokenExpiresAt`
(initially `null`). -/
structure CredState where
  valuecaseAccessToken : String
  tokenExpiresAt : Option Int
deriving DecidableEq, Repr

/-- The initial credential state: empty token, `null` expiry. -/
def initialCredState : CredState :=
  { valuecaseAccessToken := "", tokenExpiresAt := none }

/-- JS falsiness of `tokenExpiresAt : number | null` (`!tokenExpiresAt`):
true for `null` and for `0`. -/
def jsFalsyInt : Option Int → Bool
  | none => true
  | some v => decide (v = 0)

/-- The refresh test of `getValueCaseAccessToken`:
`!valuecaseAccessToken || !tokenExpiresAt || Date.now() > tokenExpiresAt`. -/
def needsRefresh (st : CredState) (now : Int) : Bool :=
  decide (st.valuecaseAccessToken = "") || jsFalsyInt st.tokenExpiresAt ||
    (match st.tokenExpiresAt with
     | none => false
     | some e => decide (e < now))

/-- `fetchValueCaseAccessToken`: POST to the token endpoint (outcome `tr`);
on success store the token and `expiresAt = now + (expires_in - 60) * 1000`
and return the token; on failure the exception propagates and neither
assignment runs, so the state is returned unchanged. -/
def fetchValueCaseAccessToken (tr : Except JsError TokenResponse) (now : Int)
    (st : CredState) : Except JsError String × CredState :=
  match tr with
  | Except.error e => (Except.error e, st)
  | Except.ok r =>
    (Except.ok r.access_token,
      { valuecaseAccessToken := r.access_token,
        tokenExpiresAt := some (now + (r.expires_in - 60) * 1000) })

/-- `getValueCaseAccessToken`: refresh when the cached credential is absent
or stale, otherwise return the cached token with no network call.  The third
component counts token-exchange HTTP calls (0 or 1). -/
def getValueCaseAccessToken (tr : Except JsError TokenResponse) (now : Int)
    (st : CredState) : Except JsError String × CredState × Nat :=
  if needsRefresh st now then
    match fetchValueCaseAccessToken tr now st with
    | (r, st2) => (r, st2, 1)
  else (Except.ok st.valuecaseAccessToken, st, 0)

/-- `l₁.isPrefixOf l₂` for char lists, written out so that proofs need no
library support. -/
def charsPre : List Char → List Char → Bool
  | [], _ => true
  | _ :: _, [] => false
  | a :: as, b :: bs => a == b && charsPre as bs

/-- Contiguous-substring test on char lists (the semantics of JS
`String.prototype.includes`). -/
def charsSub (pat : List Char) : List Char → Bool
  | [] => pat.isEmpty
  | c :: rest => charsPre pat (c :: rest) || charsSub pat rest

/-- JS `s.includes(pat)`. -/
def strIncludes (s pat : String) : Bool :=
  charsSub pat.toList s.toList

/-- `s` starts with `pre` (stated over the character data). -/
def strStarts (s pre : String) : Bool :=
  charsPre pre.toList s.toList

/-- The retry classification of `withRetry`:
`error instanceof Error && (message.includes("rate limit") || message.includes("429"))`. -/
def isRateLimit (e : JsError) : Bool :=
  e.isErrorInstance &&
    (strIncludes e.message ("rate limit") || strIncludes e.message ("429"))

/-- The recursion of `withRetry`, made structural on `fuel`, which stands for
the number of retries still allowed (`maxAttempts - attempt`); the recursive
call of the source decrements it by one.  `op` gives the outcome of each
attempt (1-based).  Returns the final outcome, the number of attempts
actually executed, and the list of delays slept (in order). -/
def withRetryAux (op : Nat → Except JsError α)
    (initialDelay maxDelay backoffFactor : Nat) :
    Nat → Nat → Except JsError α × Nat × List Nat
  | attempt, fuel =>
    match op attempt with
    | Except.ok v => (Except.ok v, 1, [])
    | Except.error e =>
      if isRateLimit e then
        match fuel with
        | 0 => (Except.error e, 1, [])
        | Nat.succ fuel1 =>
          match withRetryAux op initialDelay maxDelay backoffFactor (attempt + 1) fuel1 with
          | (r, n, ds) =>
            (r, n + 1,
              min (initialDelay * backoffFactor ^ (attempt - 1)) maxDelay :: ds)
      else (Except.error e, 1, [])

/-- `withRetry(operation, context, attempt, maxAttempts, initialDelay,
maxDelay, backoffFactor)`: retry only rate-limit-classified failures, waiting
`min(initialDelay * backoffFactor^(attempt-1), maxDelay)`, while
`attempt < maxAttempts` (that is, while `maxAttempts - attempt` retries
remain). -/
def withRetry (op : Nat → Except JsError α)
    (attempt maxAttempts initialDelay maxDelay backoffFactor : Nat) :
    Except JsError α × Nat × List Nat :=
  withRetryAux op initialDelay maxDelay backoffFactor attempt (maxAttempts - attempt)

/-- `withRetry` with the source's default parameters
(attempt=1, maxAttempts=3, initialDelay=1000, maxDelay=10000, backoffFactor=2). -/
def withRetryDefaults (op : Nat → Except JsError α) :
    Except JsError α × Nat × List Nat :=
  withRetry op 1 3 1000 10000 2

/-- JSON values as produced by `response.data`. -/
inductive Json where
  | null
  | bool (b : Bool)
  | num (n : Int)
  | str (s : String)
  | arr (xs : List Json)
  | obj (fields : List (String × Json))

/-- One hexadecimal digit, lowercase, as produced by JSON escaping. -/
def hexDigit (n : Nat) : Char :=
  if n < 10 then Char.ofNat (48 + n) else Char.ofNat (87 + n)

/-- Four-digit lowercase hexadecimal rendering for `\uXXXX` escapes. -/
def hex4 (n : Nat) : String :=
  String.mk [hexDigit ((n / 4096) % 16), hexDigit ((n / 256) % 16),
    hexDigit ((n / 16) % 16), hexDigit (n % 16)]

/-- JSON string-character escaping as performed by `JSON.stringify`. -/
def jsonEscapeChar (c : Char) : String :=
  if c = '"' then "\\\""
  else if c = '\\' then "\\\\"
  else if c = '\n' then "\\n"
  else if c = '\r' then "\\r"
  else if c = '\t' then "\\t"
  else if c = '\x08' then "\\b"
  else if c = '\x0c' then "\\f"
  else if c.toNat < 32 then "\\u" ++ hex4 c.toNat
  else String.singleton c

/-- A JSON string literal with quotes and escaping. -/
def jsonQuote (s : String) : String :=
  "\"" ++ String.join (s.toList.map jsonEscapeChar) ++ "\""

mutual

/-- `JSON.stringify(v, null, 2)` at current indentation `ind` (the
indentation of the value's closing bracket). -/
def jsonStr : String → Json → String
  | _, Json.null => "null"
  | _, Json.bool b => if b then "true" else "false"
  | _, Json.num n => toString n
  | _, Json.str s => jsonQuote s
  | _, Json.arr [] => "[]"
  | ind, Json.arr (x :: xs) =>
    "[\n" ++ String.intercalate (",\n") (jsonStrItems (ind ++ "  ") (x :: xs)) ++
      "\n" ++ ind ++ "]"
  | _, Json.obj [] => "\x7b\x7d"
  | ind, Json.obj (f :: fs) =>
    "\x7b\n" ++ String.intercalate (",\n") (jsonStrFields (ind ++ "  ") (f :: fs)) ++
      "\n" ++ ind ++ "\x7d"

/-- Array items rendered at indentation `ind`, one string per item. -/
def jsonStrItems : String → List Json → List String
  | _, [] => []
  | ind, x :: xs => (ind ++ jsonStr ind x) :: jsonStrItems ind xs

/-- Object fields rendered at indentation `ind`, one string per field. -/
def jsonStrFields : String → List (String × Json) → List String
  | _, [] => []
  | ind, (k, v) :: fs =>
    (ind ++ jsonQuote k ++ ": " ++ jsonStr ind v) :: jsonStrFields ind fs

end

/-- The serialization used for every successful tool result:
`JSON.stringify(response.data, null, 2)`. -/
def jsonStringify2 (v : Json) : String := jsonStr ("") v

/-- One content block of a tool result: a `{type, text}` pair. -/
structure ContentBlock where
  type : String
  text : String
deriving DecidableEq, Repr

/-- The value every tool invocation handler returns. -/
structure ToolResult where
  content : List ContentBlock
  isError : Bool
deriving DecidableEq, Repr

/-- A `{ type: "text", text: s }` block. -/
def textBlock (s : String) : ContentBlock :=
  { type := "text", text := s }

/-- The catch block of the handler:
`{ content: [{type:"text", text: "Error: " + message}], isError: true }`. -/
def catchResult (e : JsError) : ToolResult :=
  { content := [textBlock ("Error: " ++ errorText e)], isError := true }

/-- A resolved upstream HTTP GET: path (relative to the base URL) and the
bearer token attached in the `Authorization` header. -/
structure UpstreamReq where
  path : String
  bearer : String
deriving DecidableEq, Repr

/-- The external world as the handler sees it during one invocation:
the current time, the outcome the token-exchange POST would have, and the
outcome of each upstream GET (per request and per 1-based attempt number). -/
structure Env where
  now : Int
  fetchToken : Except JsError TokenResponse
  upstream : UpstreamReq → Nat → Except JsError Json

/-- Everything observable about one `callTool` invocation: the returned
`ToolResult`, the credential state left behind, the number of token-exchange
calls made, the upstream HTTP attempts issued (in order), and the delays
slept by the retry executor. -/
structure CallOutcome where
  result : ToolResult
  state : CredState
  tokenCalls : Nat
  upstreamAttempts : List UpstreamReq
  delays : List Nat
deriving Repr

/-- The invocation's `arguments` value: possibly absent, otherwise a mapping
from argument names to values. -/
def ArgMap := Option (List (String × JsValue))

/-- Reading a required string argument; `none` exactly when the source's
validation `!args || typeof args.x !== "string"` throws. -/
def strArg (args : ArgMap) (key : String) : Option String :=
  match args with
  | none => none
  | some l =>
    match l.lookup key with
    | some (JsValue.str s) => some s
    | _ => none

/-- Running one resolved upstream GET through `withRetry` with the default
policy and converting the outcome exactly as the handler's switch cases and
catch block do. -/
def runGet (env : Env) (st2 : CredState) (tc : Nat) (req : UpstreamReq) :
    CallOutcome :=
  match withRetryDefaults (fun attempt => env.upstream req attempt) with
  | (Except.ok data, n, ds) =>
    { result := { content := [textBlock (jsonStringify2 data)], isError := false },
      state := st2, tokenCalls := tc,
      upstreamAttempts := List.replicate n req, delays := ds }
  | (Except.error e, n, ds) =>
    { result := catchResult e, state := st2, tokenCalls := tc,
      upstreamAttempts := List.replicate n req, delays := ds }

/-- Outcome of a validation failure: the thrown `McpError` reaches the catch
block; no upstream attempt, no delay. -/
def validationFailure (st2 : CredState) (tc : Nat) (msg : String) :
    CallOutcome :=
  { result := catchResult (mcpInvalidParams msg), state := st2,
    tokenCalls := tc, upstreamAttempts := [], delays := [] }

/-- The switch of the `CallToolRequestSchema` handler, entered after the
access token has been obtained (`st2`, `tc` are the state and
token-exchange count left by that step). -/
def dispatch (env : Env) (st2 : CredState) (tc : Nat) (accessToken : String)
    (name : String) (args : ArgMap) : CallOutcome :=
  if name == "valuecase_list_spaces" then
    runGet env st2 tc { path := "/spaces", bearer := accessToken }
  else if name == "valuecase_get_space" then
    match strArg args ("spaceId") with
    | none => validationFailure st2 tc ("Missing or invalid spaceId")
    | some spaceId =>
      runGet env st2 tc { path := "/spaces/" ++ spaceId, bearer := accessToken }
  else if name == "valuecase_list_forms" then
    match strArg args ("spaceId") with
    | none => validationFailure st2 tc ("Missing or invalid spaceId")
    | some spaceId =>
      runGet env st2 tc
        { path := "/spaces/" ++ spaceId ++ "/forms", bearer := accessToken }
  else if name == "valuecase_get_form" then
    match strArg args ("formId") with
    | none => validationFailure st2 tc ("Missing or invalid formId")
    | some formId =>
      runGet env st2 tc { path := "/forms/" ++ formId, bearer := accessToken }
  else if name == "valuecase_get_form_content" then
    match strArg args ("formId") with
    | none => validationFailure st2 tc ("Missing or invalid formId")
    | some formId =>
      runGet env st2 tc
        { path := "/forms/" ++ formId ++ "/content", bearer := accessToken }
  else
    { result := { content := [textBlock ("Unknown tool: " ++ name)], isError := true },
      state := st2, tokenCalls := tc, upstreamAttempts := [], delays := [] }

/-- The whole `CallToolRequestSchema` handler: obtain the access token first
(its failure is converted by the catch block), then run the switch. -/
def callTool (env : Env) (st : CredState) (name : String) (args : ArgMap) :
    CallOutcome :=
  match getValueCaseAccessToken env.fetchToken env.now st with
  | (Except.error e, st2, tc) =>
    { result := catchResult e, state := st2, tokenCalls := tc,
      upstreamAttempts := [], delays := [] }
  | (Except.ok accessToken, st2, tc) => dispatch env st2 tc accessToken name args

/-- A property entry of an `inputSchema`: `{ type, description }`. -/
structure PropertySchema where
  type : String
  description : String
deriving DecidableEq, Repr

/-- An `inputSchema` object; `required` and `additionalProperties` are
optional keys, present only where the source writes them. -/
structure InputSchema where
  type : String
  properties : List (String × PropertySchema)
  required : Option (List String)
  additionalProperties : Option Bool
deriving DecidableEq, Repr

/-- A tool definition: `{ name, description, inputSchema }`. -/
structure Tool where
  name : String
  description : String
  inputSchema : InputSchema
deriving DecidableEq, Repr

/-- `LIST_SPACES_TOOL`. -/
def LIST_SPACES_TOOL : Tool :=
  { name := "valuecase_list_spaces",
    description := "List all spaces available to the user.",
    inputSchema :=
      { type := "object", properties := [], required := none,
        additionalProperties := some false } }

/-- `GET_SPACE_TOOL`. -/
def GET_SPACE_TOOL : Tool :=
  { name := "valuecase_get_space",
    description := "Get details of a specific space by ID.",
    inputSchema :=
      { type := "object",
        properties := [("spaceId", { type := "string", description := "ID of the space" })],
        required := some ["spaceId"], additionalProperties := none } }

/-- `LIST_FORMS_TOOL`. -/
def LIST_FORMS_TOOL : Tool :=
  { name := "valuecase_list_forms",
    description := "List all forms in a specific space.",
    inputSchema :=
      { type := "object",
        properties := [("spaceId", { type := "string", description := "ID of the space" })],
        required := some ["spaceId"], additionalProperties := none } }

/-- `GET_FORM_TOOL`. -/
def GET_FORM_TOOL : Tool :=
  { name := "valuecase_get_form",
    description := "Get details of a specific form by ID.",
    inputSchema :=
      { type := "object",
        properties := [("formId", { type := "string", description := "ID of the form" })],
        required := some ["formId"], additionalProperties := none } }

/-- `GET_FORM_CONTENT_TOOL`. -/
def GET_FORM_CONTENT_TOOL : Tool :=
  { name := "valuecase_get_form_content",
    description := "Get all content from a specific form by ID.",
    inputSchema :=
      { type := "object",
        properties := [("formId", { type := "string", description := "ID of the form" })],
        required := some ["formId"], additionalProperties := none } }

/-- The `ListToolsRequestSchema` handler's response: the five tool
definitions, in source order. -/
def listTools : List Tool :=
  [LIST_SPACES_TOOL, GET_SPACE_TOOL, LIST_FORMS_TOOL, GET_FORM_TOOL,
    GET_FORM_CONTENT_TOOL]

/-- The names the switch of the handler recognizes, in case order. -/
def registeredNames : List String :=
  ["valuecase_list_spaces", "valuecase_get_space", "valuecase_list_forms",
    "valuecase_get_form", "valuecase_get_form_content"]

/-- Whether a name is one of the registered tools. -/
def isRegistered (name : String) : Bool :=
  decide (name ∈ registeredNames)

/-- A concrete environment whose token exchange succeeds and whose upstream
always fails (used to observe that no upstream call is consumed). -/
def envTokOk : Env :=
  { now := 0,
    fetchToken := Except.ok { access_token := "tok", expires_in := 3600 },
    upstream := fun _ _ => Except.error
      { isErrorInstance := true, message := "unused", asString := "unused" } }

/-- A concrete environment whose token exchange fails with a connection
error. -/
def envTokFail : Env :=
  { now := 0,
    fetchToken := Except.error
      { isErrorInstance := true, message := "connect ECONNREFUSED",
        asString := "connect ECONNREFUSED" },
    upstream := fun _ _ => Except.error
      { isErrorInstance := true, message := "unused", asString := "unused" } }

/-- A concrete environment where both the token exchange and every upstream
GET succeed. -/
def envAllOk : Env :=
  { now := 0,
    fetchToken := Except.ok { access_token := "tok", expires_in := 3600 },
    upstream := fun _ _ => Except.ok (Json.obj []) }

/-- A concrete environment for the get-form end-to-end scenario: the
upstream returns `{"id":"f1","title":"X"}` for `GET /forms/f1`. -/
def envForm : Env :=
  { now := 0,
    fetchToken := Except.ok { access_token := "tok", expires_in := 3600 },
    upstream := fun req _ =>
      if req.path == "/forms/f1" then
        Except.ok (Json.obj [("id", Json.str ("f1")), ("title", Json.str ("X"))])
      else Except.error
        { isErrorInstance := true, message := "404", asString := "404" } }

/-- A concrete connection error, as the token exchange might produce. -/
def connErr : JsError :=
  { isErrorInstance := true, message := "connect ECONNREFUSED",
    asString := "connect ECONNREFUSED" }

/-- A concrete rate-limit error (message mentions a rate limit). -/
def rlErr1 : JsError :=
  { isErrorInstance := true, message := "rate limit", asString := "rate limit" }

/-- A concrete rate-limit error (message mentions 429). -/
def rlErr2 : JsError :=
  { isErrorInstance := true, message := "HTTP 429", asString := "HTTP 429" }

/-- A concrete non-retryable error. -/
def termErr : JsError :=
  { isErrorInstance := true, message := "boom", asString := "boom" }

/-- A concrete operation that is rate-limited on attempts 1 and 2 and
succeeds on attempt 3. -/
def opRetry : Nat → Except JsError Nat := fun a =>
  if a = 1 then Except.error rlErr1
  else if a = 2 then Except.error rlErr2
  else Except.ok 42

/-- A concrete operation that always fails with a non-rate-limit error. -/
def opFail : Nat → Except JsError Nat := fun _ => Except.error termErr

/-- The upstream body of the get-form end-to-end scenario. -/
def formBody : Json := Json.obj [("id", Json.str ("f1")), ("title", Json.str ("X"))]

end Valuecase

namespace Valuecase

/-- A successful attempt stops the retry loop at once. -/
theorem withRetryAux_ok (op : Nat → Except JsError α) (i m b attempt fuel : Nat)
    (v : α) (hop : op attempt = Except.ok v) :
    withRetryAux op i m b attempt fuel = (Except.ok v, 1, []) := by
  unfold withRetryAux
  simp [hop]

/-- A non-rate-limit failure propagates at once, whatever the remaining
fuel. -/
theorem withRetryAux_terminal (op : Nat → Except JsError α) (i m b attempt fuel : Nat)
    (e : JsError) (hop : op attempt = Except.error e) (hnl : isRateLimit e = false) :
    withRetryAux op i m b attempt fuel = (Except.error e, 1, []) := by
  unfold withRetryAux
  simp [hop, hnl]

/-- With no retries left, the failure propagates even when retryable. -/
theorem withRetryAux_exhausted (op : Nat → Except JsError α) (i m b attempt : Nat)
    (e : JsError) (hop : op attempt = Except.error e) :
    withRetryAux op i m b attempt 0 = (Except.error e, 1, []) := by
  unfold withRetryAux
  simp [hop]

/-- One retry step: on a retryable failure with fuel left, the executor
sleeps `min (i * b ^ (attempt - 1)) m` and recurses with the next attempt
number. -/
theorem withRetryAux_step (op : Nat → Except JsError α) (i m b attempt fuel1 : Nat)
    (e : JsError) (hop : op attempt = Except.error e) (hrl : isRateLimit e = true) :
    withRetryAux op i m b attempt (Nat.succ fuel1) =
      ((withRetryAux op i m b (attempt + 1) fuel1).1,
       (withRetryAux op i m b (attempt + 1) fuel1).2.1 + 1,
       min (i * b ^ (attempt - 1)) m :: (withRetryAux op i m b (attempt + 1) fuel1).2.2) := by
  conv_lhs => unfold withRetryAux
  rcases h : withRetryAux op i m b (attempt + 1) fuel1 with ⟨r, n, ds⟩
  simp [hop, hrl, h]

/-- Claim C3: the retry executor classifies a failure as retryable only when
it is rate-limit-related (an `Error` whose message contains `rate limit` or
`429`; the context label affects only logging); a non-rate-limit failure
propagates immediately with one attempt made and no delay; on a retryable
failure below the attempt cap it waits `min (1000 * 2 ^ (attempt - 1)) 10000`
milliseconds and retries with the attempt incremented; an operation that is
rate-limited on attempts 1 and 2 and succeeds on attempt 3 yields the
success value after exactly the delays `[1000, 2000]` (total 3000 ms); and
three rate-limit failures exhaust the 3 attempts and propagate the last
failure. -/
theorem withRetry_c3 (op : Nat → Except JsError α) :
    (∀ attempt maxAttempts e, op attempt = Except.error e → isRateLimit e = false →
      withRetry op attempt maxAttempts 1000 10000 2 = (Except.error e, 1, [])) ∧
    (∀ attempt maxAttempts e, op attempt = Except.error e → isRateLimit e = true →
      attempt < maxAttempts →
      withRetry op attempt maxAttempts 1000 10000 2 =
        ((withRetry op (attempt + 1) maxAttempts 1000 10000 2).1,
         (withRetry op (attempt + 1) maxAttempts 1000 10000 2).2.1 + 1,
         min (1000 * 2 ^ (attempt - 1)) 10000 ::
           (withRetry op (attempt + 1) maxAttempts 1000 10000 2).2.2)) ∧
    (∀ e1 e2 v, op 1 = Except.error e1 → isRateLimit e1 = true →
      op 2 = Except.error e2 → isRateLimit e2 = true → op 3 = Except.ok v →
      withRetryDefaults op = (Except.ok v, 3, [1000, 2000])) ∧
    (∀ e1 e2 e3, op 1 = Except.error e1 → isRateLimit e1 = true →
      op 2 = Except.error e2 → isRateLimit e2 = true → op 3 = Except.error e3 →
      withRetryDefaults op = (Except.error e3, 3, [1000, 2000])) := by
  refine ⟨?_, ?_, ?_, ?_⟩
  · intro attempt maxAttempts e hop hnl
    exact withRetryAux_terminal op 1000 10000 2 attempt _ e hop hnl
  · intro attempt maxAttempts e hop hrl hlt
    have hfuel : maxAttempts - attempt = Nat.succ (maxAttempts - (attempt + 1)) := by omega
    unfold withRetry
    rw [hfuel]
    exact withRetryAux_step op 1000 10000 2 attempt _ e hop hrl
  · intro e1 e2 v h1 hr1 h2 hr2 h3
    have h30 : withRetryAux op 1000 10000 2 3 0 = (Except.ok v, 1, []) :=
      withRetryAux_ok op 1000 10000 2 3 0 v h3
    have h21 : withRetryAux op 1000 10000 2 2 1 = (Except.ok v, 2, [2000]) := by
      rw [show (1 : Nat) = Nat.succ 0 from rfl,
        withRetryAux_step op 1000 10000 2 2 0 e2 h2 hr2, h30]
      norm_num
    have h12 : withRetryAux op 1000 10000 2 1 2 = (Except.ok v, 3, [1000, 2000]) := by
      rw [show (2 : Nat) = Nat.succ 1 from rfl,
        withRetryAux_step op 1000 10000 2 1 1 e1 h1 hr1, h21]
      norm_num
    exact h12
  · intro e1 e2 e3 h1 hr1 h2 hr2 h3
    have h30 : withRetryAux op 1000 10000 2 3 0 = (Except.error e3, 1, []) :=
      withRetryAux_exhausted op 1000 10000 2 3 e3 h3
    have h21 : withRetryAux op 1000 10000 2 2 1 = (Except.error e3, 2, [2000]) := by
      rw [show (1 : Nat) = Nat.succ 0 from rfl,
        withRetryAux_step op 1000 10000 2 2 0 e2 h2 hr2, h30]
      norm_num
    have h12 : withRetryAux op 1000 10000 2 1 2 = (Except.error e3, 3, [1000, 2000]) := by
      rw [show (2 : Nat) = Nat.succ 1 from rfl,
        withRetryAux_step op 1000 10000 2 1 1 e1 h1 hr1, h21]
      norm_num
    exact h12

/-- The refresh test, spelled out as a disjunction over the cache fields. -/
theorem needsRefresh_iff (st : CredState) (now : Int) :
    needsRefresh st now = true ↔
      (st.valuecaseAccessToken = "" ∨ st.tokenExpiresAt = none ∨
       st.tokenExpiresAt = some 0 ∨
       ∃ e, st.tokenExpiresAt = some e ∧ e < now) := by
  cases h : st.tokenExpiresAt with
  | none => simp [needsRefresh, jsFalsyInt, h]
  | some e =>
    simp [needsRefresh, jsFalsyInt, h]
    tauto

/-- The number of token-exchange calls is 1 on refresh and 0 otherwise. -/
theorem getToken_count (tr : Except JsError TokenResponse) (now : Int) (st : CredState) :
    (getValueCaseAccessToken tr now st).2.2 = if needsRefresh st now then 1 else 0 := by
  cases h : needsRefresh st now with
  | true =>
    cases hf : fetchValueCaseAccessToken tr now st with
    | mk r st2 => simp [getValueCaseAccessToken, h, hf]
  | false => simp [getValueCaseAccessToken, h]

/-- Without refresh, the cached token is returned and nothing changes. -/
theorem getToken_cached (tr : Except JsError TokenResponse) (now : Int) (st : CredState)
    (h : needsRefresh st now = false) :
    getValueCaseAccessToken tr now st = (Except.ok st.valuecaseAccessToken, st, 0) := by
  simp [getValueCaseAccessToken, h]

/-- A refresh with a successful exchange stores the new token and expiry. -/
theorem getToken_refresh_ok (r : TokenResponse) (now : Int) (st : CredState)
    (h : needsRefresh st now = true) :
    getValueCaseAccessToken (Except.ok r) now st =
      (Except.ok r.access_token,
       { valuecaseAccessToken := r.access_token,
         tokenExpiresAt := some (now + (r.expires_in - 60) * 1000) }, 1) := by
  simp [getValueCaseAccessToken, h, fetchValueCaseAccessToken]

/-- A refresh with a failing exchange propagates the failure and leaves the
state unchanged. -/
theorem getToken_refresh_err (e : JsError) (now : Int) (st : CredState)
    (h : needsRefresh st now = true) :
    getValueCaseAccessToken (Except.error e) now st = (Except.error e, st, 1) := by
  simp [getValueCaseAccessToken, h, fetchValueCaseAccessToken]

/-- Claim C2 (amended): `getValueCaseAccessToken` performs a token exchange
exactly when the cached token is empty, the expiry is unset or zero, or the
expiry is STRICTLY before the current time; when no exchange happens the
cached token is returned unchanged and the current time is at or before the
stored expiry (so a credential is never handed out strictly past its expiry
minus the 60-second margin); a successful exchange stores
`expiresAt = now + (expires_in - 60) seconds`; after a fetch with
`expires_in = 3600` at time `t0 ≥ 0`, a second call at or before 3540
seconds later issues no second exchange, and a call strictly after 3540
seconds triggers a refresh.  (The frozen claim says an exchange also happens
when `expiresAt` equals the current time, and that a call at exactly 3540
seconds refreshes; the code refreshes only strictly after.) -/
theorem getValidCredential_c2 :
    (∀ tr now st, ((getValueCaseAccessToken tr now st).2.2 = 1 ↔
      (st.valuecaseAccessToken = "" ∨ st.tokenExpiresAt = none ∨
       st.tokenExpiresAt = some 0 ∨ ∃ e, st.tokenExpiresAt = some e ∧ e < now))) ∧
    (∀ tr now st, (getValueCaseAccessToken tr now st).2.2 = 0 →
      getValueCaseAccessToken tr now st = (Except.ok st.valuecaseAccessToken, st, 0) ∧
      st.valuecaseAccessToken ≠ "" ∧ ∃ e, st.tokenExpiresAt = some e ∧ now ≤ e) ∧
    (∀ (r : TokenResponse) now st, needsRefresh st now = true →
      getValueCaseAccessToken (Except.ok r) now st =
        (Except.ok r.access_token,
         { valuecaseAccessToken := r.access_token,
           tokenExpiresAt := some (now + (r.expires_in - 60) * 1000) }, 1)) ∧
    (∀ (r : TokenResponse) tr2 t0 d (st0 : CredState), r.expires_in = 3600 →
      r.access_token ≠ "" → 0 ≤ t0 → 0 ≤ d → d ≤ 3540000 →
      getValueCaseAccessToken tr2 (t0 + d) (fetchValueCaseAccessToken (Except.ok r) t0 st0).2 =
        (Except.ok r.access_token, (fetchValueCaseAccessToken (Except.ok r) t0 st0).2, 0)) ∧
    (∀ (r : TokenResponse) tr2 t0 d (st0 : CredState), r.expires_in = 3600 → 3540000 < d →
      (getValueCaseAccessToken tr2 (t0 + d) (fetchValueCaseAccessToken (Except.ok r) t0 st0).2).2.2 = 1) := by
  refine ⟨?_, ?_, ?_, ?_, ?_⟩
  · intro tr now st
    rw [getToken_count, ← needsRefresh_iff st now]
    cases h : needsRefresh st now <;> simp [h]
  · intro tr now st h
    cases hnr : needsRefresh st now with
    | true =>
      rw [getToken_count, hnr] at h
      simp at h
    | false =>
      refine ⟨getToken_cached tr now st hnr, ?_, ?_⟩
      · intro htok
        have hT : needsRefresh st now = true := (needsRefresh_iff st now).mpr (Or.inl htok)
        rw [hnr] at hT
        exact absurd hT (by simp)
      · cases hopt : st.tokenExpiresAt with
        | none =>
          have hT : needsRefresh st now = true :=
            (needsRefresh_iff st now).mpr (Or.inr (Or.inl hopt))
          rw [hnr] at hT
          exact absurd hT (by simp)
        | some e =>
          refine ⟨e, rfl, ?_⟩
          by_contra hlt
          push_neg at hlt
          have hT : needsRefresh st now = true :=
            (needsRefresh_iff st now).mpr (Or.inr (Or.inr (Or.inr ⟨e, hopt, hlt⟩)))
          rw [hnr] at hT
          exact absurd hT (by simp)
  · intro r now st h
    exact getToken_refresh_ok r now st h
  · intro r tr2 t0 d st0 h36 htok ht0 hd0 hdle
    have hst : (fetchValueCaseAccessToken (Except.ok r) t0 st0).2 =
        { valuecaseAccessToken := r.access_token, tokenExpiresAt := some (t0 + 3540000) } := by
      simp [fetchValueCaseAccessToken, h36]
    rw [hst]
    have hnr : needsRefresh
        { valuecaseAccessToken := r.access_token, tokenExpiresAt := some (t0 + 3540000) }
        (t0 + d) = false := by
      simp [needsRefresh, jsFalsyInt, htok]
      constructor <;> omega
    exact getToken_cached tr2 (t0 + d) _ hnr
  · intro r tr2 t0 d st0 h36 hgt
    rw [getToken_count]
    have hT : needsRefresh (fetchValueCaseAccessToken (Except.ok r) t0 st0).2 (t0 + d) = true := by
      refine (needsRefresh_iff _ _).mpr (Or.inr (Or.inr (Or.inr
        ⟨t0 + (r.expires_in - 60) * 1000, ?_, ?_⟩)))
      · simp [fetchValueCaseAccessToken]
      · rw [h36]
        omega
    rw [hT]
    rfl

end Valuecase

namespace Valuecase

/-- When the token step succeeds, the handler is the switch. -/
theorem callTool_token_ok (env : Env) (st : CredState) (name : String) (args : ArgMap)
    (tok : String) (st2 : CredState) (tc : Nat)
    (hg : getValueCaseAccessToken env.fetchToken env.now st = (Except.ok tok, st2, tc)) :
    callTool env st name args = dispatch env st2 tc tok name args := by
  simp [callTool, hg]

/-- When the token step fails, the catch block converts the failure. -/
theorem callTool_token_err (env : Env) (st : CredState) (name : String) (args : ArgMap)
    (e : JsError) (st2 : CredState) (tc : Nat)
    (hg : getValueCaseAccessToken env.fetchToken env.now st = (Except.error e, st2, tc)) :
    callTool env st name args =
      { result := catchResult e, state := st2, tokenCalls := tc,
        upstreamAttempts := [], delays := [] } := by
  simp [callTool, hg]

/-- The list-spaces case issues `GET /spaces` without touching the
arguments. -/
theorem dispatch_list_spaces (env : Env) (st2 : CredState) (tc : Nat) (tok : String)
    (args : ArgMap) :
    dispatch env st2 tc tok ("valuecase_list_spaces") args =
      runGet env st2 tc { path := "/spaces", bearer := tok } := by
  simp [dispatch]

/-- get-space with a missing or non-string `spaceId` throws `McpError`. -/
theorem dispatch_get_space_invalid (env : Env) (st2 : CredState) (tc : Nat) (tok : String)
    (args : ArgMap) (hs : strArg args ("spaceId") = none) :
    dispatch env st2 tc tok ("valuecase_get_space") args =
      validationFailure st2 tc ("Missing or invalid spaceId") := by
  simp [dispatch, hs]

/-- get-space with a string `spaceId` issues `GET /spaces/{spaceId}`. -/
theorem dispatch_get_space_valid (env : Env) (st2 : CredState) (tc : Nat) (tok : String)
    (args : ArgMap) (sid : String) (hs : strArg args ("spaceId") = some sid) :
    dispatch env st2 tc tok ("valuecase_get_space") args =
      runGet env st2 tc { path := "/spaces/" ++ sid, bearer := tok } := by
  simp [dispatch, hs]

/-- list-forms with a missing or non-string `spaceId` throws `McpError`. -/
theorem dispatch_list_forms_invalid (env : Env) (st2 : CredState) (tc : Nat) (tok : String)
    (args : ArgMap) (hs : strArg args ("spaceId") = none) :
    dispatch env st2 tc tok ("valuecase_list_forms") args =
      validationFailure st2 tc ("Missing or invalid spaceId") := by
  simp [dispatch, hs]

/-- list-forms with a string `spaceId` issues `GET /spaces/{spaceId}/forms`. -/
theorem dispatch_list_forms_valid (env : Env) (st2 : CredState) (tc : Nat) (tok : String)
    (args : ArgMap) (sid : String) (hs : strArg args ("spaceId") = some sid) :
    dispatch env st2 tc tok ("valuecase_list_forms") args =
      runGet env st2 tc { path := "/spaces/" ++ sid ++ "/forms", bearer := tok } := by
  simp [dispatch, hs]

/-- get-form with a missing or non-string `formId` throws `McpError`. -/
theorem dispatch_get_form_invalid (env : Env) (st2 : CredState) (tc : Nat) (tok : String)
    (args : ArgMap) (hf : strArg args ("formId") = none) :
    dispatch env st2 tc tok ("valuecase_get_form") args =
      validationFailure st2 tc ("Missing or invalid formId") := by
  simp [dispatch, hf]

/-- get-form with a string `formId` issues `GET /forms/{formId}`. -/
theorem dispatch_get_form_valid (env : Env) (st2 : CredState) (tc : Nat) (tok : String)
    (args : ArgMap) (fid : String) (hf : strArg args ("formId") = some fid) :
    dispatch env st2 tc tok ("valuecase_get_form") args =
      runGet env st2 tc { path := "/forms/" ++ fid, bearer := tok } := by
  simp [dispatch, hf]

/-- get-form-content with a missing or non-string `formId` throws
`McpError`. -/
theorem dispatch_get_form_content_invalid (env : Env) (st2 : CredState) (tc : Nat)
    (tok : String) (args : ArgMap) (hf : strArg args ("formId") = none) :
    dispatch env st2 tc tok ("valuecase_get_form_content") args =
      validationFailure st2 tc ("Missing or invalid formId") := by
  simp [dispatch, hf]

/-- get-form-content with a string `formId` issues
`GET /forms/{formId}/content`. -/
theorem dispatch_get_form_content_valid (env : Env) (st2 : CredState) (tc : Nat)
    (tok : String) (args : ArgMap) (fid : String) (hf : strArg args ("formId") = some fid) :
    dispatch env st2 tc tok ("valuecase_get_form_content") args =
      runGet env st2 tc { path := "/forms/" ++ fid ++ "/content", bearer := tok } := by
  simp [dispatch, hf]

/-- An unregistered name falls through to the default case. -/
theorem dispatch_unknown (env : Env) (st2 : CredState) (tc : Nat) (tok : String)
    (name : String) (args : ArgMap) (hn : isRegistered name = false) :
    dispatch env st2 tc tok name args =
      { result := { content := [textBlock ("Unknown tool: " ++ name)], isError := true },
        state := st2, tokenCalls := tc, upstreamAttempts := [], delays := [] } := by
  simp [isRegistered, registeredNames] at hn
  obtain ⟨h1, h2, h3, h4, h5⟩ := hn
  simp [dispatch, h1, h2, h3, h4, h5]

/-- A prefix test on an appended prefix always succeeds. -/
theorem charsPre_append (l m : List Char) : charsPre l (l ++ m) = true := by
  induction l with
  | nil => rfl
  | cons a as ih => simp [charsPre, ih]

/-- A string of the form `p ++ s` starts with `p`. -/
theorem strStarts_append (p s : String) : strStarts (p ++ s) p = true := by
  have h : (p ++ s).toList = p.toList ++ s.toList := String.data_append p s
  simp [strStarts, h, charsPre_append]

/-- A suffix is found by the substring test. -/
theorem charsSub_append (l pat : List Char) : charsSub pat (l ++ pat) = true := by
  induction l with
  | nil =>
    cases pat with
    | nil => rfl
    | cons c cs =>
      have h := charsPre_append (c :: cs) []
      simp at h
      simp [charsSub, h]
  | cons a as ih => simp [charsSub, ih]

/-- A string of the form `p ++ s` contains `s`. -/
theorem strIncludes_append (p s : String) : strIncludes (p ++ s) s = true := by
  have h : (p ++ s).toList = p.toList ++ s.toList := String.data_append p s
  simp [strIncludes, h, charsSub_append]

/-- An upstream GET whose first attempt succeeds produces the pretty-printed
body with exactly one attempt and no delay. -/
theorem runGet_ok1 (env : Env) (st2 : CredState) (tc : Nat) (req : UpstreamReq)
    (body : Json) (hu : env.upstream req 1 = Except.ok body) :
    runGet env st2 tc req =
      { result := { content := [textBlock (jsonStringify2 body)], isError := false },
        state := st2, tokenCalls := tc, upstreamAttempts := [req], delays := [] } := by
  have h := withRetryAux_ok (fun a => env.upstream req a) 1000 10000 2 1 2 body
    (by simpa using hu)
  simp [runGet, withRetryDefaults, withRetry, h]

/-- `runGet` passes the token-call count and state through unchanged. -/
theorem runGet_passthrough (env : Env) (st2 : CredState) (tc : Nat) (req : UpstreamReq) :
    (runGet env st2 tc req).tokenCalls = tc ∧ (runGet env st2 tc req).state = st2 := by
  rcases h : withRetryDefaults (fun a => env.upstream req a) with ⟨r, n, ds⟩
  cases r <;> simp [runGet, h]

/-- Every `runGet` result is a single text block, and on error its text
carries the `Error: ` marker. -/
theorem runGet_shape (env : Env) (st2 : CredState) (tc : Nat) (req : UpstreamReq) :
    (runGet env st2 tc req).result.content.map ContentBlock.type = ["text"] ∧
    ((runGet env st2 tc req).result.isError = true →
      ∀ b ∈ (runGet env st2 tc req).result.content, strStarts b.text ("Error: ") = true) := by
  rcases h : withRetryDefaults (fun a => env.upstream req a) with ⟨r, n, ds⟩
  cases r with
  | error e =>
    refine ⟨by simp [runGet, h, catchResult, textBlock], ?_⟩
    intro hie b hb
    simp [runGet, h, catchResult, textBlock] at hb
    rw [hb]
    exact strStarts_append ("Error: ") (errorText e)
  | ok v => simp [runGet, h, textBlock]

/-- Every HTTP attempt `runGet` issues is the resolved request itself. -/
theorem runGet_paths (env : Env) (st2 : CredState) (tc : Nat) (req : UpstreamReq) :
    ∀ r ∈ (runGet env st2 tc req).upstreamAttempts, r = req := by
  rcases h : withRetryDefaults (fun a => env.upstream req a) with ⟨r, n, ds⟩
  cases r <;> simp [runGet, h]

end Valuecase

namespace Valuecase

/-- Common shape of an invocation with a validation failure: error result,
no upstream attempt, no delay, and a token-exchange count that depends only
on the cached credential, because the handler obtained the credential before
validating. -/
theorem callTool_validation_case (env : Env) (st : CredState) (args : ArgMap)
    (n m : String)
    (hd : ∀ st2 tc tok, dispatch env st2 tc tok n args = validationFailure st2 tc m) :
    (callTool env st n args).upstreamAttempts = [] ∧
    (callTool env st n args).delays = [] ∧
    (callTool env st n args).result.isError = true ∧
    (callTool env st n args).tokenCalls = (if needsRefresh st env.now then 1 else 0) ∧
    (∀ tok st2 tc,
      getValueCaseAccessToken env.fetchToken env.now st = (Except.ok tok, st2, tc) →
      callTool env st n args = validationFailure st2 tc m) := by
  have htc := getToken_count env.fetchToken env.now st
  rcases hg : getValueCaseAccessToken env.fetchToken env.now st with ⟨r, st2, tc⟩
  rw [hg] at htc
  cases r with
  | error e =>
    rw [callTool_token_err env st n args e st2 tc hg]
    refine ⟨rfl, rfl, rfl, htc, ?_⟩
    intro tok st2a tca hga
    simp at hga
  | ok tok =>
    rw [callTool_token_ok env st n args tok st2 tc hg, hd st2 tc tok]
    refine ⟨rfl, rfl, rfl, htc, ?_⟩
    intro toka st2a tca hga
    simp at hga
    obtain ⟨-, h2, h3⟩ := hga
    rw [h2, h3]

/-- Claim C1 (amended): for each of the four tools with a required string
argument, an invocation whose required argument is missing or non-string
yields an error ToolResult, with no upstream resource attempt and no retry
delay; when the credential step succeeded the result is exactly the
`Error: Missing or invalid <arg>` ToolResult produced by the thrown
`McpError`.  However the handler obtains the credential BEFORE validating,
so the invocation still performs one token-exchange network call exactly
when the cached credential needs refresh: the actual order is obtain
credential, then validate, then dispatch.  (The frozen claim says no network
call of any kind happens and that validation comes first.) -/
theorem callTool_c1 (env : Env) (st : CredState) (args : ArgMap)
    (hs : strArg args ("spaceId") = none) (hf : strArg args ("formId") = none) :
    ((callTool env st ("valuecase_get_space") args).upstreamAttempts = [] ∧
     (callTool env st ("valuecase_get_space") args).delays = [] ∧
     (callTool env st ("valuecase_get_space") args).result.isError = true ∧
     (callTool env st ("valuecase_get_space") args).tokenCalls =
       (if needsRefresh st env.now then 1 else 0) ∧
     (∀ tok st2 tc,
       getValueCaseAccessToken env.fetchToken env.now st = (Except.ok tok, st2, tc) →
       callTool env st ("valuecase_get_space") args =
         validationFailure st2 tc ("Missing or invalid spaceId"))) ∧
    ((callTool env st ("valuecase_list_forms") args).upstreamAttempts = [] ∧
     (callTool env st ("valuecase_list_forms") args).delays = [] ∧
     (callTool env st ("valuecase_list_forms") args).result.isError = true ∧
     (callTool env st ("valuecase_list_forms") args).tokenCalls =
       (if needsRefresh st env.now then 1 else 0) ∧
     (∀ tok st2 tc,
       getValueCaseAccessToken env.fetchToken env.now st = (Except.ok tok, st2, tc) →
       callTool env st ("valuecase_list_forms") args =
         validationFailure st2 tc ("Missing or invalid spaceId"))) ∧
    ((callTool env st ("valuecase_get_form") args).upstreamAttempts = [] ∧
     (callTool env st ("valuecase_get_form") args).delays = [] ∧
     (callTool env st ("valuecase_get_form") args).result.isError = true ∧
     (callTool env st ("valuecase_get_form") args).tokenCalls =
       (if needsRefresh st env.now then 1 else 0) ∧
     (∀ tok st2 tc,
       getValueCaseAccessToken env.fetchToken env.now st = (Except.ok tok, st2, tc) →
       callTool env st ("valuecase_get_form") args =
         validationFailure st2 tc ("Missing or invalid formId"))) ∧
    ((callTool env st ("valuecase_get_form_content") args).upstreamAttempts = [] ∧
     (callTool env st ("valuecase_get_form_content") args).delays = [] ∧
     (callTool env st ("valuecase_get_form_content") args).result.isError = true ∧
     (callTool env st ("valuecase_get_form_content") args).tokenCalls =
       (if needsRefresh st env.now then 1 else 0) ∧
     (∀ tok st2 tc,
       getValueCaseAccessToken env.fetchToken env.now st = (Except.ok tok, st2, tc) →
       callTool env st ("valuecase_get_form_content") args =
         validationFailure st2 tc ("Missing or invalid formId"))) := by
  refine ⟨?_, ?_, ?_, ?_⟩
  · exact callTool_validation_case env st args ("valuecase_get_space")
      ("Missing or invalid spaceId")
      (fun st2 tc tok => dispatch_get_space_invalid env st2 tc tok args hs)
  · exact callTool_validation_case env st args ("valuecase_list_forms")
      ("Missing or invalid spaceId")
      (fun st2 tc tok => dispatch_list_forms_invalid env st2 tc tok args hs)
  · exact callTool_validation_case env st args ("valuecase_get_form")
      ("Missing or invalid formId")
      (fun st2 tc tok => dispatch_get_form_invalid env st2 tc tok args hf)
  · exact callTool_validation_case env st args ("valuecase_get_form_content")
      ("Missing or invalid formId")
      (fun st2 tc tok => dispatch_get_form_content_invalid env st2 tc tok args hf)

end Valuecase

namespace Valuecase

/-- Every switch outcome is a single text block, and for a registered tool
every error text carries the `Error: ` marker. -/
theorem dispatch_shape (env : Env) (st2 : CredState) (tc : Nat) (tok : String)
    (name : String) (args : ArgMap) :
    (dispatch env st2 tc tok name args).result.content.map ContentBlock.type = ["text"] ∧
    ((dispatch env st2 tc tok name args).result.isError = true → isRegistered name = true →
      ∀ b ∈ (dispatch env st2 tc tok name args).result.content,
        strStarts b.text ("Error: ") = true) := by
  by_cases h1 : name = "valuecase_list_spaces"
  · subst h1
    rw [dispatch_list_spaces]
    have h := runGet_shape env st2 tc { path := "/spaces", bearer := tok }
    exact ⟨h.1, fun hie _ => h.2 hie⟩
  by_cases h2 : name = "valuecase_get_space"
  · subst h2
    cases hs : strArg args ("spaceId") with
    | none =>
      rw [dispatch_get_space_invalid env st2 tc tok args hs]
      refine ⟨rfl, ?_⟩
      intro hie _ b hb
      simp [validationFailure, catchResult, textBlock] at hb
      rw [hb]
      exact strStarts_append ("Error: ") _
    | some sid =>
      rw [dispatch_get_space_valid env st2 tc tok args sid hs]
      have h := runGet_shape env st2 tc { path := "/spaces/" ++ sid, bearer := tok }
      exact ⟨h.1, fun hie _ => h.2 hie⟩
  by_cases h3 : name = "valuecase_list_forms"
  · subst h3
    cases hs : strArg args ("spaceId") with
    | none =>
      rw [dispatch_list_forms_invalid env st2 tc tok args hs]
      refine ⟨rfl, ?_⟩
      intro hie _ b hb
      simp [validationFailure, catchResult, textBlock] at hb
      rw [hb]
      exact strStarts_append ("Error: ") _
    | some sid =>
      rw [dispatch_list_forms_valid env st2 tc tok args sid hs]
      have h := runGet_shape env st2 tc { path := "/spaces/" ++ sid ++ "/forms", bearer := tok }
      exact ⟨h.1, fun hie _ => h.2 hie⟩
  by_cases h4 : name = "valuecase_get_form"
  · subst h4
    cases hf : strArg args ("formId") with
    | none =>
      rw [dispatch_get_form_invalid env st2 tc tok args hf]
      refine ⟨rfl, ?_⟩
      intro hie _ b hb
      simp [validationFailure, catchResult, textBlock] at hb
      rw [hb]
      exact strStarts_append ("Error: ") _
    | some fid =>
      rw [dispatch_get_form_valid env st2 tc tok args fid hf]
      have h := runGet_shape env st2 tc { path := "/forms/" ++ fid, bearer := tok }
      exact ⟨h.1, fun hie _ => h.2 hie⟩
  by_cases h5 : name = "valuecase_get_form_content"
  · subst h5
    cases hf : strArg args ("formId") with
    | none =>
      rw [dispatch_get_form_content_invalid env st2 tc tok args hf]
      refine ⟨rfl, ?_⟩
      intro hie _ b hb
      simp [validationFailure, catchResult, textBlock] at hb
      rw [hb]
      exact strStarts_append ("Error: ") _
    | some fid =>
      rw [dispatch_get_form_content_valid env st2 tc tok args fid hf]
      have h := runGet_shape env st2 tc { path := "/forms/" ++ fid ++ "/content", bearer := tok }
      exact ⟨h.1, fun hie _ => h.2 hie⟩
  have hn : isRegistered name = false := by
    simp [isRegistered, registeredNames]
    exact ⟨h1, h2, h3, h4, h5⟩
  rw [dispatch_unknown env st2 tc tok name args hn]
  refine ⟨rfl, ?_⟩
  intro _ hreg
  rw [hn] at hreg
  simp at hreg

/-- Claim C4: `callTool` never raises outward — for every environment,
credential state, tool name and arguments it returns a well-formed
ToolResult whose content is exactly one text block; and for the failures the
claim enumerates (validation, credential exchange, upstream resource call —
all of which occur on registered tool names) the error text starts with
`Error: ` followed by the message the catch block extracted from the
failure. -/
theorem callTool_c4 (env : Env) (st : CredState) (name : String) (args : ArgMap) :
    (callTool env st name args).result.content.map ContentBlock.type = ["text"] ∧
    ((callTool env st name args).result.isError = true → isRegistered name = true →
      ∀ b ∈ (callTool env st name args).result.content,
        strStarts b.text ("Error: ") = true) := by
  rcases hg : getValueCaseAccessToken env.fetchToken env.now st with ⟨r, st2, tc⟩
  cases r with
  | error e =>
    rw [callTool_token_err env st name args e st2 tc hg]
    refine ⟨rfl, ?_⟩
    intro hie _ b hb
    simp [catchResult, textBlock] at hb
    rw [hb]
    exact strStarts_append ("Error: ") _
  | ok tok =>
    rw [callTool_token_ok env st name args tok st2 tc hg]
    exact dispatch_shape env st2 tc tok name args

/-- Claim C6: the credential exchange is never retried — a failing exchange
makes exactly one token call and propagates the failure unmodified out of
`getValueCaseAccessToken`; the handler converts it into an error ToolResult
whose text `Error: <message>` contains the underlying failure message, and
no upstream resource attempt is made for that invocation. -/
theorem callTool_c6 (env : Env) (st : CredState) (name : String) (args : ArgMap)
    (e : JsError) (hr : needsRefresh st env.now = true)
    (hf : env.fetchToken = Except.error e) :
    getValueCaseAccessToken env.fetchToken env.now st = (Except.error e, st, 1) ∧
    callTool env st name args =
      { result := { content := [textBlock ("Error: " ++ errorText e)], isError := true },
        state := st, tokenCalls := 1, upstreamAttempts := [], delays := [] } ∧
    strIncludes ("Error: " ++ errorText e) (errorText e) = true := by
  have hg : getValueCaseAccessToken env.fetchToken env.now st = (Except.error e, st, 1) := by
    rw [hf]
    exact getToken_refresh_err e env.now st hr
  refine ⟨hg, ?_, strIncludes_append ("Error: ") (errorText e)⟩
  rw [callTool_token_err env st name args e st 1 hg]
  rfl

/-- Claim C7 (amended): an invocation naming a tool not in the registry,
made while the credential step succeeds (cached valid credential or
successful exchange), yields `isError = true` with exactly one text block
`Unknown tool: <name>` and touches no upstream endpoint; the path is the
default case of the switch, distinct from required-argument validation.
(The frozen claim promises this for EVERY such invocation, but when the
credential step fails the handler returns that failure instead, since the
credential is obtained before the switch.) -/
theorem callTool_c7 (env : Env) (st : CredState) (name : String) (args : ArgMap)
    (tok : String) (st2 : CredState) (tc : Nat)
    (hg : getValueCaseAccessToken env.fetchToken env.now st = (Except.ok tok, st2, tc))
    (hn : isRegistered name = false) :
    callTool env st name args =
      { result := { content := [textBlock ("Unknown tool: " ++ name)], isError := true },
        state := st2, tokenCalls := tc, upstreamAttempts := [], delays := [] } := by
  rw [callTool_token_ok env st name args tok st2 tc hg]
  exact dispatch_unknown env st2 tc tok name args hn

/-- Claim C9: a failed token exchange leaves the cached credential state
unchanged — `fetchValueCaseAccessToken` assigns the token and expiry only
after the POST succeeds, so on failure both fields keep their previous
values, whatever they were. -/
theorem fetch_c9 (now : Int) (st : CredState) :
    (∀ e, fetchValueCaseAccessToken (Except.error e) now st = (Except.error e, st)) ∧
    (∀ r, fetchValueCaseAccessToken (Except.ok r) now st =
      (Except.ok r.access_token,
       { valuecaseAccessToken := r.access_token,
         tokenExpiresAt := some (now + (r.expires_in - 60) * 1000) })) :=
  ⟨fun _ => rfl, fun _ => rfl⟩

/-- Claim C10: the list-spaces case never reads the arguments — two
invocations differing only in their arguments produce identical outcomes
(result, state, and all observable effects), and every upstream attempt the
invocation issues is `GET /spaces`. -/
theorem callTool_c10 :
    (∀ env st a1 a2,
      callTool env st ("valuecase_list_spaces") a1 =
        callTool env st ("valuecase_list_spaces") a2) ∧
    (∀ env st args r,
      r ∈ (callTool env st ("valuecase_list_spaces") args).upstreamAttempts →
      r.path = "/spaces") := by
  constructor
  · intro env st a1 a2
    rcases hg : getValueCaseAccessToken env.fetchToken env.now st with ⟨r, st2, tc⟩
    cases r with
    | error e =>
      rw [callTool_token_err env st ("valuecase_list_spaces") a1 e st2 tc hg,
        callTool_token_err env st ("valuecase_list_spaces") a2 e st2 tc hg]
    | ok tok =>
      rw [callTool_token_ok env st ("valuecase_list_spaces") a1 tok st2 tc hg,
        callTool_token_ok env st ("valuecase_list_spaces") a2 tok st2 tc hg,
        dispatch_list_spaces, dispatch_list_spaces]
  · intro env st args r hr
    rcases hg : getValueCaseAccessToken env.fetchToken env.now st with ⟨rr, st2, tc⟩
    cases rr with
    | error e =>
      rw [callTool_token_err env st ("valuecase_list_spaces") args e st2 tc hg] at hr
      simp at hr
    | ok tok =>
      rw [callTool_token_ok env st ("valuecase_list_spaces") args tok st2 tc hg,
        dispatch_list_spaces] at hr
      have h := runGet_paths env st2 tc { path := "/spaces", bearer := tok } r hr
      rw [h]

end Valuecase

namespace Valuecase

/-- Claim C5: with a valid `formId` and a credential, a first-attempt
upstream success for get-form yields `isError = false` with exactly one text
block holding `JSON.stringify(body, null, 2)` and exactly one upstream
attempt at the verbatim path `/forms/{formId}`; and for every registered
tool with valid arguments, every upstream attempt carries the path built by
verbatim substitution of the argument (with the bearer token attached). -/
theorem callTool_c5 :
    (∀ env st args fid tok st2 tc body,
      strArg args ("formId") = some fid →
      getValueCaseAccessToken env.fetchToken env.now st = (Except.ok tok, st2, tc) →
      env.upstream { path := "/forms/" ++ fid, bearer := tok } 1 = Except.ok body →
      callTool env st ("valuecase_get_form") args =
        { result := { content := [textBlock (jsonStringify2 body)], isError := false },
          state := st2, tokenCalls := tc,
          upstreamAttempts := [{ path := "/forms/" ++ fid, bearer := tok }],
          delays := [] }) ∧
    (∀ env st args tok st2 tc,
      getValueCaseAccessToken env.fetchToken env.now st = (Except.ok tok, st2, tc) →
      (∀ r ∈ (callTool env st ("valuecase_list_spaces") args).upstreamAttempts,
        r = { path := "/spaces", bearer := tok }) ∧
      (∀ sid, strArg args ("spaceId") = some sid →
        (∀ r ∈ (callTool env st ("valuecase_get_space") args).upstreamAttempts,
          r = { path := "/spaces/" ++ sid, bearer := tok }) ∧
        (∀ r ∈ (callTool env st ("valuecase_list_forms") args).upstreamAttempts,
          r = { path := "/spaces/" ++ sid ++ "/forms", bearer := tok })) ∧
      (∀ fid, strArg args ("formId") = some fid →
        (∀ r ∈ (callTool env st ("valuecase_get_form") args).upstreamAttempts,
          r = { path := "/forms/" ++ fid, bearer := tok }) ∧
        (∀ r ∈ (callTool env st ("valuecase_get_form_content") args).upstreamAttempts,
          r = { path := "/forms/" ++ fid ++ "/content", bearer := tok }))) := by
  constructor
  · intro env st args fid tok st2 tc body ha hg hu
    rw [callTool_token_ok env st ("valuecase_get_form") args tok st2 tc hg,
      dispatch_get_form_valid env st2 tc tok args fid ha,
      runGet_ok1 env st2 tc { path := "/forms/" ++ fid, bearer := tok } body hu]
  · intro env st args tok st2 tc hg
    refine ⟨?_, ?_, ?_⟩
    · rw [callTool_token_ok env st ("valuecase_list_spaces") args tok st2 tc hg,
        dispatch_list_spaces]
      exact runGet_paths env st2 tc { path := "/spaces", bearer := tok }
    · intro sid hsid
      constructor
      · rw [callTool_token_ok env st ("valuecase_get_space") args tok st2 tc hg,
          dispatch_get_space_valid env st2 tc tok args sid hsid]
        exact runGet_paths env st2 tc { path := "/spaces/" ++ sid, bearer := tok }
      · rw [callTool_token_ok env st ("valuecase_list_forms") args tok st2 tc hg,
          dispatch_list_forms_valid env st2 tc tok args sid hsid]
        exact runGet_paths env st2 tc { path := "/spaces/" ++ sid ++ "/forms", bearer := tok }
    · intro fid hfid
      constructor
      · rw [callTool_token_ok env st ("valuecase_get_form") args tok st2 tc hg,
          dispatch_get_form_valid env st2 tc tok args fid hfid]
        exact runGet_paths env st2 tc { path := "/forms/" ++ fid, bearer := tok }
      · rw [callTool_token_ok env st ("valuecase_get_form_content") args tok st2 tc hg,
          dispatch_get_form_content_valid env st2 tc tok args fid hfid]
        exact runGet_paths env st2 tc { path := "/forms/" ++ fid ++ "/content", bearer := tok }

/-- Claim C8: `listTools` returns exactly the five tool definitions,
verbatim and in fixed order (list-spaces, get-space, list-forms, get-form,
get-form-content); list-spaces declares no required arguments, get-space and
list-forms require a string `spaceId`, and get-form and get-form-content
require a string `formId`.  `listTools` is a constant, so every call returns
the same value. -/
theorem listTools_c8 :
    listTools = [LIST_SPACES_TOOL, GET_SPACE_TOOL, LIST_FORMS_TOOL, GET_FORM_TOOL,
      GET_FORM_CONTENT_TOOL] ∧
    listTools.map Tool.name = ["valuecase_list_spaces", "valuecase_get_space",
      "valuecase_list_forms", "valuecase_get_form", "valuecase_get_form_content"] ∧
    LIST_SPACES_TOOL.inputSchema.required = none ∧
    LIST_SPACES_TOOL.inputSchema.properties = [] ∧
    GET_SPACE_TOOL.inputSchema.required = some ["spaceId"] ∧
    LIST_FORMS_TOOL.inputSchema.required = some ["spaceId"] ∧
    GET_FORM_TOOL.inputSchema.required = some ["formId"] ∧
    GET_FORM_CONTENT_TOOL.inputSchema.required = some ["formId"] ∧
    (GET_SPACE_TOOL.inputSchema.properties.lookup ("spaceId")).map PropertySchema.type =
      some ("string") ∧
    (LIST_FORMS_TOOL.inputSchema.properties.lookup ("spaceId")).map PropertySchema.type =
      some ("string") ∧
    (GET_FORM_TOOL.inputSchema.properties.lookup ("formId")).map PropertySchema.type =
      some ("string") ∧
    (GET_FORM_CONTENT_TOOL.inputSchema.properties.lookup ("formId")).map PropertySchema.type =
      some ("string") :=
  ⟨rfl, rfl, rfl, rfl, rfl, rfl, rfl, rfl, rfl, rfl, rfl, rfl⟩

end Valuecase

namespace Valuecase

/-- Counterexample to claim C1 as frozen: in `envTokOk` (empty cache,
working exchange) an invocation of get-space with no arguments fails
validation — the result is an error — yet `tokenCalls = 1`: a token-exchange
network call was made, because the handler obtains the credential before
validating.  The claim asserts no network call of any kind and the order
validate-then-credential. -/
theorem callTool_c1_counterexample :
    (callTool envTokOk initialCredState ("valuecase_get_space") none).result.isError = true ∧
    (callTool envTokOk initialCredState ("valuecase_get_space") none).tokenCalls = 1 := by
  decide

/-- Witness for the amended claim C1 at a concrete input. -/
theorem callTool_c1_witness :
    (callTool envTokOk initialCredState ("valuecase_get_space") none).upstreamAttempts = [] ∧
    (callTool envTokOk initialCredState ("valuecase_get_space") none).result.isError = true ∧
    callTool envTokOk initialCredState ("valuecase_get_form") none =
      validationFailure { valuecaseAccessToken := "tok", tokenExpiresAt := some 3540000 } 1
        ("Missing or invalid formId") := by
  have h := callTool_c1 envTokOk initialCredState none rfl rfl
  exact ⟨h.1.1, h.1.2.2.1, h.2.2.1.2.2.2.2 ("tok")
    { valuecaseAccessToken := "tok", tokenExpiresAt := some 3540000 } 1 rfl⟩

/-- Counterexample to claim C2 as frozen: with a cached credential whose
`expiresAt` EQUALS the current time (1000), the claim demands a token
exchange (`expiresAt` at or before now), but the code performs none — the
exchange outcome is an error, yet the cached token `t` is returned with zero
exchange calls. -/
theorem getToken_c2_counterexample :
    getValueCaseAccessToken
      (Except.error { isErrorInstance := true, message := "no-exchange", asString := "no-exchange" })
      1000 { valuecaseAccessToken := "t", tokenExpiresAt := some 1000 } =
    (Except.ok ("t"), { valuecaseAccessToken := "t", tokenExpiresAt := some 1000 }, 0) := by
  rfl

/-- Witness for the amended claim C2 at concrete inputs: a fetch at time 0
with `expires_in = 3600` stores expiry 3540000 ms; a second call 3540000 ms
later returns the cache with no exchange; a call 3540001 ms later performs
an exchange. -/
theorem getValidCredential_c2_witness :
    getValueCaseAccessToken (Except.ok { access_token := "t", expires_in := 3600 }) 0
      initialCredState =
      (Except.ok ("t"), { valuecaseAccessToken := "t", tokenExpiresAt := some 3540000 }, 1) ∧
    getValueCaseAccessToken
      (Except.error { isErrorInstance := true, message := "x", asString := "x" }) (0 + 3540000)
      (fetchValueCaseAccessToken (Except.ok { access_token := "t", expires_in := 3600 }) 0
        initialCredState).2 =
      (Except.ok ("t"),
       (fetchValueCaseAccessToken (Except.ok { access_token := "t", expires_in := 3600 }) 0
         initialCredState).2, 0) ∧
    (getValueCaseAccessToken
      (Except.error { isErrorInstance := true, message := "x", asString := "x" }) (0 + 3540001)
      (fetchValueCaseAccessToken (Except.ok { access_token := "t", expires_in := 3600 }) 0
        initialCredState).2).2.2 = 1 := by
  refine ⟨?_, ?_, ?_⟩
  · exact getValidCredential_c2.2.2.1 { access_token := "t", expires_in := 3600 } 0
      initialCredState rfl
  · exact getValidCredential_c2.2.2.2.1 { access_token := "t", expires_in := 3600 }
      (Except.error { isErrorInstance := true, message := "x", asString := "x" }) 0 3540000
      initialCredState rfl (by decide) le_rfl (by norm_num) le_rfl
  · exact getValidCredential_c2.2.2.2.2 { access_token := "t", expires_in := 3600 }
      (Except.error { isErrorInstance := true, message := "x", asString := "x" }) 0 3540001
      initialCredState rfl (by norm_num)

/-- Witness for claim C3 at concrete operations: `opRetry` (rate-limited
twice, then 42) succeeds after delays `[1000, 2000]`; `opFail` (non-rate-
limit) propagates at once. -/
theorem withRetry_c3_witness :
    withRetryDefaults opRetry = (Except.ok 42, 3, [1000, 2000]) ∧
    withRetry opFail 1 3 1000 10000 2 = (Except.error termErr, 1, []) := by
  refine ⟨?_, ?_⟩
  · exact (withRetry_c3 opRetry).2.2.1 rlErr1 rlErr2 42 rfl (by decide) rfl (by decide) rfl
  · exact (withRetry_c3 opFail).1 1 3 termErr rfl (by decide)

/-- Witness for claim C4 at a concrete input: a failing credential exchange
on a registered tool yields an error result whose text starts with
`Error: `. -/
theorem callTool_c4_witness :
    (callTool envTokFail initialCredState ("valuecase_list_spaces") none).result.isError = true ∧
    isRegistered ("valuecase_list_spaces") = true ∧
    strStarts (textBlock ("Error: connect ECONNREFUSED")).text ("Error: ") = true := by
  refine ⟨by decide, by decide, ?_⟩
  exact (callTool_c4 envTokFail initialCredState ("valuecase_list_spaces") none).2 (by decide)
    (by decide) (textBlock ("Error: connect ECONNREFUSED")) (by decide)

/-- Witness for claim C5: the end-to-end get-form scenario — upstream
returns `{"id":"f1","title":"X"}` at `GET /forms/f1` and the result is that
body pretty-printed with two-space indentation, `isError = false`. -/
theorem callTool_c5_witness :
    callTool envForm initialCredState ("valuecase_get_form")
      (some [("formId", JsValue.str ("f1"))]) =
      { result :=
          { content := [textBlock ("\x7b\n  \"id\": \"f1\",\n  \"title\": \"X\"\n\x7d")],
            isError := false },
        state := { valuecaseAccessToken := "tok", tokenExpiresAt := some 3540000 },
        tokenCalls := 1,
        upstreamAttempts := [{ path := "/forms/f1", bearer := "tok" }], delays := [] } := by
  exact callTool_c5.1 envForm initialCredState (some [("formId", JsValue.str ("f1"))]) ("f1")
    ("tok") { valuecaseAccessToken := "tok", tokenExpiresAt := some 3540000 } 1 formBody
    rfl rfl rfl

/-- Witness for claim C6: the end-to-end list-spaces scenario with a failing
token exchange — the result text contains the connection-error message and
no upstream attempt is made. -/
theorem callTool_c6_witness :
    getValueCaseAccessToken envTokFail.fetchToken envTokFail.now initialCredState =
      (Except.error connErr, initialCredState, 1) ∧
    callTool envTokFail initialCredState ("valuecase_list_spaces") none =
      { result := { content := [textBlock ("Error: connect ECONNREFUSED")], isError := true },
        state := initialCredState, tokenCalls := 1, upstreamAttempts := [], delays := [] } ∧
    strIncludes ("Error: connect ECONNREFUSED") ("connect ECONNREFUSED") = true := by
  have h := callTool_c6 envTokFail initialCredState ("valuecase_list_spaces") none connErr rfl rfl
  exact ⟨h.1, h.2.1, h.2.2⟩

/-- Counterexample to claim C7 as frozen: an invocation of the unregistered
tool `valuecase_nonexistent` does NOT always return the
`Unknown tool: valuecase_nonexistent` result — when the token exchange fails
(here with a connection error) the handler returns that failure instead,
because the credential is obtained before the switch. -/
theorem callTool_c7_counterexample :
    (callTool envTokFail initialCredState ("valuecase_nonexistent") none).result =
      { content := [textBlock ("Error: connect ECONNREFUSED")], isError := true } ∧
    (callTool envTokFail initialCredState ("valuecase_nonexistent") none).result ≠
      { content := [textBlock ("Unknown tool: valuecase_nonexistent")], isError := true } := by
  decide

/-- Witness for the amended claim C7 at a concrete input: with a working
credential step, the unregistered name yields the `Unknown tool` result. -/
theorem callTool_c7_witness :
    callTool envTokOk initialCredState ("valuecase_nonexistent") none =
      { result :=
          { content := [textBlock ("Unknown tool: valuecase_nonexistent")], isError := true },
        state := { valuecaseAccessToken := "tok", tokenExpiresAt := some 3540000 },
        tokenCalls := 1, upstreamAttempts := [], delays := [] } := by
  exact callTool_c7 envTokOk initialCredState ("valuecase_nonexistent") none ("tok")
    { valuecaseAccessToken := "tok", tokenExpiresAt := some 3540000 } 1 rfl (by decide)

/-- Witness for claim C10 at concrete inputs: absent arguments and an
arguments object with an extra key give identical outcomes, and the issued
request path is `/spaces`. -/
theorem callTool_c10_witness :
    callTool envAllOk initialCredState ("valuecase_list_spaces") none =
      callTool envAllOk initialCredState ("valuecase_list_spaces")
        (some [("extra", JsValue.other)]) ∧
    ({ path := "/spaces", bearer := "tok" } : UpstreamReq).path = "/spaces" := by
  refine ⟨callTool_c10.1 envAllOk initialCredState none (some [("extra", JsValue.other)]), ?_⟩
  exact callTool_c10.2 envAllOk initialCredState none { path := "/spaces", bearer := "tok" }
    (by decide)

end Valuecase
